import Mathlib

/-!
Shallow embedding of `stash_rest.py` (StashRESTClient, a REST client for the
Stash API) and verification of its specification.

JSON values are modelled as an inductive type; Python dictionaries appear as
association lists in insertion order (Python dict keys are unique and ordered,
so first-match lookup agrees with dict lookup).  Python exceptions are
modelled by an `Except PyErr` result.  The HTTP layer (the `requests`
library) is modelled by a transport function from requests to responses; the
result of `response.json()` is carried on the response, since JSON parsing is
performed by the transport library and is out of scope for this component.
-/

set_option autoImplicit false

namespace StashRest

/-- A JSON value, as passed around by the Python code. -/
inductive Json where
  | null
  | bool (b : Bool)
  | num (n : Int)
  | str (s : String)
  | arr (items : List Json)
  | obj (fields : List (String × Json))

/-- The Python exceptions this module can raise. -/
inductive PyErr where
  | keyError (key : String)
  | typeError (msg : String)
  | attributeError (msg : String)
  | exception (msg : String)
  deriving DecidableEq, Repr

/-- Python truthiness of a JSON-like value: None, False, 0, empty string,
empty list and empty dict are falsy, everything else is truthy. -/
def Json.truthy : Json → Bool
  | .null => false
  | .bool b => b
  | .num n => n != 0
  | .str s => s != ""
  | .arr items => !items.isEmpty
  | .obj fields => !fields.isEmpty

/-- Lookup in a Python dict modelled as an association list
(first match; dict keys are unique). -/
def objLookup : List (String × Json) → String → Option Json
  | [], _ => none
  | (k, v) :: rest, key => if k == key then some v else objLookup rest key

/-- Python subscript `j[key]` with a string key: dict lookup raising
KeyError on a missing key, TypeError on non-dict values. -/
def Json.getItem (j : Json) (key : String) : Except PyErr Json :=
  match j with
  | .obj fields =>
    match objLookup fields key with
    | some v => .ok v
    | none => .error (.keyError key)
  | .str _ => .error (.typeError "string indices must be integers")
  | .arr _ => .error (.typeError "list indices must be integers")
  | _ => .error (.typeError "object is not subscriptable")

/-- Python `j.get(key)` on a dict: the value, or None when missing;
AttributeError when `j` is not a dict. -/
def Json.dget (j : Json) (key : String) : Except PyErr Json :=
  match j with
  | .obj fields => .ok ((objLookup fields key).getD .null)
  | _ => .error (.attributeError "get")

/-- Python `j.get(key, default)` on a dict; AttributeError when `j` is not
a dict. -/
def Json.dgetD (j : Json) (key : String) (default : Json) : Except PyErr Json :=
  match j with
  | .obj fields => .ok ((objLookup fields key).getD default)
  | _ => .error (.attributeError "get")

mutual

/-- Python `repr` of a JSON-like value (escaping of quotes inside strings
does not occur in this development and is not modelled). -/
def pyRepr : Json → String
  | .null => "None"
  | .bool b => if b then "True" else "False"
  | .num n => toString n
  | .str s => "'" ++ s ++ "'"
  | .arr items => "[" ++ pyReprItems items ++ "]"
  | .obj fields => "\x7b" ++ pyReprFields fields ++ "\x7d"

/-- Comma-separated reprs of list items. -/
def pyReprItems : List Json → String
  | [] => ""
  | [x] => pyRepr x
  | x :: xs => pyRepr x ++ ", " ++ pyReprItems xs

/-- Comma-separated reprs of dict entries. -/
def pyReprFields : List (String × Json) → String
  | [] => ""
  | [(k, v)] => "'" ++ k ++ "': " ++ pyRepr v
  | (k, v) :: kvs => "'" ++ k ++ "': " ++ pyRepr v ++ ", " ++ pyReprFields kvs

end

/-- Python `str` of a JSON-like value, as used by f-string interpolation:
identity on strings, `repr`-like rendering otherwise. -/
def pyStr : Json → String
  | .str s => s
  | j => pyRepr j

/-- Python `tag["name"] == name` where `name` is a string: true exactly for
an equal string; values of other types compare unequal without error. -/
def pyEqStr (j : Json) (s : String) : Bool :=
  match j with
  | .str t => t == s
  | _ => false

/-- Python `for x in j`: lists yield their items, strings their characters,
dicts their keys; other values raise TypeError. -/
def pyIter : Json → Except PyErr (List Json)
  | .arr items => .ok items
  | .str s => .ok (s.toList.map fun c => .str (String.singleton c))
  | .obj fields => .ok (fields.map fun kv => .str kv.1)
  | _ => .error (.typeError "object is not iterable")

/-- The state of a `StashRESTClient` instance: the fields assigned by
`__init__` and read by `_request`. -/
structure StashRESTClient where
  port : Json
  base_url : String
  headers : List (String × String)
  cookies : List (String × Json)

/-- The fixed header mapping built in `__init__`. -/
def defaultHeaders : List (String × String) :=
  [("Accept-Encoding", "gzip, deflate, br"),
   ("Content-Type", "application/json"),
   ("Accept", "application/json"),
   ("Connection", "keep-alive")]

/-- Constructor `StashRESTClient.__init__(conn)`.  `conn["Port"]` and `conn["Scheme"]`
raise KeyError when missing; `Host` defaults to `"localhost"`; the cookie
mapping gets a `session` entry exactly when `conn.get("SessionCookie")`
is truthy, holding that objects `Value` entry (empty string when absent). -/
def StashRESTClient.init (conn : Json) : Except PyErr StashRESTClient :=
  match conn.getItem "Port" with
  | .error e => .error e
  | .ok port =>
  match conn.getItem "Scheme" with
  | .error e => .error e
  | .ok scheme =>
  match conn.dgetD "Host" (.str "localhost") with
  | .error e => .error e
  | .ok host =>
  match conn.dget "SessionCookie" with
  | .error e => .error e
  | .ok cookie =>
  match ((if cookie.truthy then
            match cookie.dgetD "Value" (.str "") with
            | .error e => .error e
            | .ok v => .ok [("session", v)]
          else .ok []) : Except PyErr (List (String × Json))) with
  | .error e => .error e
  | .ok cookies =>
    .ok { port := port
          base_url := pyStr scheme ++ "://" ++ pyStr host ++ ":" ++ pyStr port ++ "/api/v1"
          headers := defaultHeaders
          cookies := cookies }

/-- The HTTP request handed to `requests.request`: method, absolute url,
JSON body (`Json.null` models the `json=None` default, i.e. no body),
headers and cookies. -/
structure Request where
  method : String
  url : String
  json : Json
  headers : List (String × String)
  cookies : List (String × Json)

/-- The HTTP response as observed by `_request`: status code, raw body
text, and the value `response.json()` would produce (JSON parsing happens
inside the transport library and is out of scope here). -/
structure Response where
  status_code : Nat
  text : String
  json : Except PyErr Json

/-- A transport: the behaviour of the network and the `requests` library. -/
def Transport : Type := Request → Response

/-- The request value `_request` sends for a given method, path and body. -/
def StashRESTClient.sentRequest (c : StashRESTClient) (method path : String) (json_body : Json) : Request :=
  { method := method
    url := c.base_url ++ path
    json := json_body
    headers := c.headers
    cookies := c.cookies }

/-- The message of the exception `_request` raises on status codes at
least 400. -/
def apiErrorMsg (status : Nat) (text method path : String) : String :=
  "REST API error " ++ toString status ++ ": " ++ text ++
    ". Method: " ++ method ++ ", Path: " ++ path

/-- Method `_request(method, path, json_body)`. -/
def StashRESTClient._request (c : StashRESTClient) (tr : Transport) (method path : String)
    (json_body : Json) : Except PyErr Json :=
  let response := tr (c.sentRequest method path json_body)
  if response.status_code ≥ 400 then
    .error (.exception (apiErrorMsg response.status_code response.text method path))
  else if response.status_code == 204 || response.text == "" then
    .ok .null
  else
    response.json

/-- Verb method `get(path)`. -/
def StashRESTClient.get (c : StashRESTClient) (tr : Transport) (path : String) : Except PyErr Json :=
  c._request tr "GET" path .null

/-- Verb method `post(path, body=None)`; `Json.null` models an omitted body. -/
def StashRESTClient.post (c : StashRESTClient) (tr : Transport) (path : String) (body : Json) :
    Except PyErr Json :=
  c._request tr "POST" path body

/-- Verb method `put(path, body=None)`. -/
def StashRESTClient.put (c : StashRESTClient) (tr : Transport) (path : String) (body : Json) :
    Except PyErr Json :=
  c._request tr "PUT" path body

/-- Verb method `patch(path, body=None)`. -/
def StashRESTClient.patch (c : StashRESTClient) (tr : Transport) (path : String) (body : Json) :
    Except PyErr Json :=
  c._request tr "PATCH" path body

/-- Verb method `delete(path, body=None)`. -/
def StashRESTClient.delete (c : StashRESTClient) (tr : Transport) (path : String) (body : Json) :
    Except PyErr Json :=
  c._request tr "DELETE" path body

/-- The body posted by `find_tag_by_name`. -/
def tagQueryBody (name : String) : Json :=
  .obj [("filter", .obj [("q", .str name), ("per_page", .num (-1))])]

/-- The loop of `find_tag_by_name`: subscript each tag at `"name"`, return
its `"id"` entry on the first exact match, fall through to None. -/
def scanTags (name : String) : List Json → Except PyErr Json
  | [] => .ok .null
  | tag :: rest =>
    match tag.getItem "name" with
    | .error e => .error e
    | .ok v =>
      if pyEqStr v name then tag.getItem "id"
      else scanTags name rest

/-- Convenience method `find_tag_by_name(name)`. -/
def StashRESTClient.find_tag_by_name (c : StashRESTClient) (tr : Transport)
    (name : String) : Except PyErr Json :=
  match c.post tr "/tags/query" (tagQueryBody name) with
  | .error e => .error e
  | .ok result =>
    if result.truthy then
      match result.dget "tags" with
      | .error e => .error e
      | .ok tagsVal =>
        if tagsVal.truthy then
          match result.getItem "tags" with
          | .error e => .error e
          | .ok iterable =>
            match pyIter iterable with
            | .error e => .error e
            | .ok tags => scanTags name tags
        else .ok .null
    else .ok .null

/-- Convenience method `create_tag(name)`. -/
def StashRESTClient.create_tag (c : StashRESTClient) (tr : Transport)
    (name : String) : Except PyErr Json :=
  c.post tr "/tags" (.obj [("name", .str name)])

/-- Append an entry to a dict when the value is truthy, as the
`if x: body[k] = x` pattern does. -/
def addIfTruthy (body : List (String × Json)) (key : String) (v : Json) :
    List (String × Json) :=
  if v.truthy then body ++ [(key, v)] else body

/-- The body built by `find_scenes`. -/
def sceneQueryBody (filter_params scene_filter : Json) : Json :=
  .obj (addIfTruthy (addIfTruthy [] "filter" filter_params) "scene_filter" scene_filter)

/-- Convenience method `find_scenes(filter_params=None, scene_filter=None)`; `Json.null` models
an omitted argument. -/
def StashRESTClient.find_scenes (c : StashRESTClient) (tr : Transport)
    (filter_params scene_filter : Json) : Except PyErr Json :=
  c.post tr "/scenes/query" (sceneQueryBody filter_params scene_filter)

/-- The body built by `find_performers`. -/
def performerQueryBody (filter_params performer_filter : Json) : Json :=
  .obj (addIfTruthy (addIfTruthy [] "filter" filter_params) "performer_filter" performer_filter)

/-- Convenience method `find_performers(filter_params=None, performer_filter=None)`. -/
def StashRESTClient.find_performers (c : StashRESTClient) (tr : Transport)
    (filter_params performer_filter : Json) : Except PyErr Json :=
  c.post tr "/performers/query" (performerQueryBody filter_params performer_filter)

/-- The body built by `metadata_scan`. -/
def scanBody (paths : Json) : Json :=
  .obj (addIfTruthy [] "paths" paths)

/-- Convenience method `metadata_scan(paths=None)`. -/
def StashRESTClient.metadata_scan (c : StashRESTClient) (tr : Transport)
    (paths : Json) : Except PyErr Json :=
  c.post tr "/metadata/scan" (scanBody paths)

/-- One public method call on a client instance, with its arguments. -/
inductive Call where
  | get (path : String)
  | post (path : String) (body : Json)
  | put (path : String) (body : Json)
  | patch (path : String) (body : Json)
  | delete (path : String) (body : Json)
  | find_tag_by_name (name : String)
  | create_tag (name : String)
  | find_scenes (filter_params scene_filter : Json)
  | find_performers (filter_params performer_filter : Json)
  | metadata_scan (paths : Json)

/-- Run one call on an instance, returning the instance state afterwards
together with the calls result.  Each method body only reads `self`, so the
state after the call is the state before it. -/
def runCall (tr : Transport) (c : StashRESTClient) :
    Call → StashRESTClient × Except PyErr Json
  | .get p => (c, c.get tr p)
  | .post p b => (c, c.post tr p b)
  | .put p b => (c, c.put tr p b)
  | .patch p b => (c, c.patch tr p b)
  | .delete p b => (c, c.delete tr p b)
  | .find_tag_by_name n => (c, c.find_tag_by_name tr n)
  | .create_tag n => (c, c.create_tag tr n)
  | .find_scenes fp sf => (c, c.find_scenes tr fp sf)
  | .find_performers fp pf => (c, c.find_performers tr fp pf)
  | .metadata_scan p => (c, c.metadata_scan tr p)

/-- Run a sequence of calls, threading the instance state. -/
def runCalls (tr : Transport) (c : StashRESTClient) : List Call → StashRESTClient
  | [] => c
  | call :: rest => runCalls tr (runCall tr c call).1 rest

/-- Whether a result is a normal return rather than a raised exception. -/
def exceptOk {α : Type} : Except PyErr α → Bool
  | .ok _ => true
  | .error _ => false

/-- Whether a JSON value is a dict holding the given key. -/
def hasKey (j : Json) (key : String) : Bool :=
  match j with
  | .obj fields => (objLookup fields key).isSome
  | _ => false

/-- The optional-argument values the spec talks about: an omitted argument
(`Json.null`, the Python default None), or a dict or list filter value. -/
def dictOrListArg (j : Json) : Prop :=
  j = .null ∨ (∃ kvs, j = .obj kvs) ∨ (∃ xs, j = .arr xs)

/-- Spec-side reading of a supplied, non-null, non-empty optional argument:
a dict or list with at least one entry. -/
def nonEmptyArg : Json → Bool
  | .obj kvs => !kvs.isEmpty
  | .arr xs => !xs.isEmpty
  | _ => false

/-- A tag object with a string entry under the key `name`. -/
def hasStrName (t : Json) : Bool :=
  match t.getItem "name" with
  | .ok (.str _) => true
  | _ => false

/-- Spec-side exact, case-sensitive name match of a tag object. -/
def tagNameIs (name : String) (t : Json) : Bool :=
  match t.getItem "name" with
  | .ok (.str s) => s == name
  | _ => false

/-- Modelled from the spec wording for `findTagByName`: scan the tags in
order for the first exact, case-sensitive name match and return its id,
or null when there is none. -/
def specFindTagByName (name : String) (tags : List Json) : Json :=
  match tags.find? (tagNameIs name) with
  | some t =>
    match t.getItem "id" with
    | .ok v => v
    | .error _ => .null
  | none => .null

theorem hasStrName_elim {t : Json} (h : hasStrName t = true) :
    ∃ s, t.getItem "name" = .ok (.str s) := by
  unfold hasStrName at h
  split at h
  · next s heq => exact ⟨s, heq⟩
  · exact absurd h (by simp)

theorem exceptOk_elim {α : Type} {r : Except PyErr α} (h : exceptOk r = true) :
    ∃ v, r = .ok v := by
  cases r with
  | ok v => exact ⟨v, rfl⟩
  | error e => exact absurd h (by simp [exceptOk])

theorem dictOrListArg_truthy {j : Json} (h : dictOrListArg j) :
    j.truthy = nonEmptyArg j := by
  rcases h with h | ⟨kvs, h⟩ | ⟨xs, h⟩ <;> subst h <;> rfl

/-- C5: a ConnectionInfo dict missing the Port key or the Scheme key makes
construction fail eagerly (with a KeyError), so no client instance exists
and no request is ever issued. -/
theorem init_missing_field_fails (fields : List (String × Json))
    (h : objLookup fields "Port" = none ∨ objLookup fields "Scheme" = none) :
    exceptOk (StashRESTClient.init (.obj fields)) = false ∧
    ∀ c, StashRESTClient.init (.obj fields) ≠ .ok c := by
  have hfail : exceptOk (StashRESTClient.init (.obj fields)) = false := by
    rcases h with h | h
    · simp [StashRESTClient.init, Json.getItem, h, exceptOk]
    · cases hp : objLookup fields "Port" with
      | none => simp [StashRESTClient.init, Json.getItem, hp, exceptOk]
      | some v => simp [StashRESTClient.init, Json.getItem, hp, h, exceptOk]
  refine ⟨hfail, fun c hc => ?_⟩
  rw [hc] at hfail
  exact absurd hfail (by simp [exceptOk])

/-- C5 witness: the empty ConnectionInfo dict is rejected. -/
theorem init_missing_field_fails_witness :
    objLookup [] "Port" = none ∧
    exceptOk (StashRESTClient.init (.obj [])) = false :=
  ⟨rfl, (init_missing_field_fails [] (Or.inl rfl)).1⟩

/-- C6: for a valid ConnectionInfo (string scheme, integer port, host a
string or absent, in which case it is localhost), a successfully built
client has base_url equal to scheme://host:port/api/v1, and every request
goes to base_url with the path appended verbatim. -/
theorem init_base_url (fields : List (String × Json)) (scheme hostStr : String) (port : Int)
    (hs : objLookup fields "Scheme" = some (.str scheme))
    (hp : objLookup fields "Port" = some (.num port))
    (hh : objLookup fields "Host" = some (.str hostStr) ∨
          (objLookup fields "Host" = none ∧ hostStr = "localhost")) :
    ∀ c, StashRESTClient.init (.obj fields) = .ok c →
      c.base_url = scheme ++ "://" ++ hostStr ++ ":" ++ toString port ++ "/api/v1" ∧
      ∀ method path body, (c.sentRequest method path body).url = c.base_url ++ path := by
  intro c hc
  unfold StashRESTClient.init at hc
  simp [Json.getItem, Json.dget, Json.dgetD, hp, hs] at hc
  have hhost : (objLookup fields "Host").getD (.str "localhost") = .str hostStr := by
    rcases hh with h | ⟨h, h2⟩
    · simp [h]
    · simp [h, h2]
  rw [hhost] at hc
  split at hc
  · exact absurd hc (by simp)
  · rw [Except.ok.injEq] at hc
    subst hc
    exact ⟨by simp [pyStr, pyRepr], fun method path body => rfl⟩

/-- The ConnectionInfo fields of the worked example in the spec. -/
def exampleFields : List (String × Json) :=
  [("Port", .num 9999), ("Scheme", .str "http"), ("Host", .str "localhost")]

/-- The client instance the worked example constructs. -/
def clientLocal : StashRESTClient :=
  { port := .num 9999
    base_url := "http://localhost:9999/api/v1"
    headers := defaultHeaders
    cookies := [] }

/-- C6 witness: scheme http, port 9999, host localhost gives base_url
http://localhost:9999/api/v1, and a GET of /tags goes to that url plus
/tags. -/
theorem init_base_url_witness :
    clientLocal.base_url = "http://localhost:9999/api/v1" ∧
    (clientLocal.sentRequest "GET" "/tags" Json.null).url = clientLocal.base_url ++ "/tags" :=
  ⟨(init_base_url exampleFields "http" "localhost" 9999 rfl rfl (Or.inl rfl)
      clientLocal rfl).1,
   (init_base_url exampleFields "http" "localhost" 9999 rfl rfl (Or.inl rfl)
      clientLocal rfl).2 "GET" "/tags" Json.null⟩

/-- C8: no method call mutates the client instance: running any sequence of
public calls leaves the state (base_url, headers, cookies, port) exactly as
construction left it. -/
theorem calls_do_not_mutate_state (tr : Transport) (c : StashRESTClient) :
    (∀ call, (runCall tr c call).1 = c) ∧ (∀ calls, runCalls tr c calls = c) := by
  have hone : ∀ call, (runCall tr c call).1 = c := by
    intro call
    cases call <;> rfl
  refine ⟨hone, fun calls => ?_⟩
  induction calls with
  | nil => rfl
  | cons call rest ih => rw [runCalls, hone call, ih]

/-- A response with status 404 and a plain-text body. -/
def tr404 : Transport :=
  fun _ => { status_code := 404, text := "not found", json := .error (.exception "no json") }

/-- A 500 response whose body text embeds the message delimiter. -/
def trMsgA : Transport :=
  fun _ => { status_code := 500, text := "a. Method: GET, Path: /b", json := .error (.exception "x") }

/-- A 500 response with a short body. -/
def trMsgB : Transport :=
  fun _ => { status_code := 500, text := "a", json := .error (.exception "x") }

/-- A 500 response with an empty body. -/
def tr500empty : Transport :=
  fun _ => { status_code := 500, text := "", json := .error (.exception "invalid json") }

/-- A 204 response. -/
def tr204 : Transport :=
  fun _ => { status_code := 204, text := "", json := .error (.exception "invalid json") }

/-- A 200 response whose body decodes to a one-element array. -/
def tr200arr : Transport :=
  fun _ => { status_code := 200, text := "[1]", json := .ok (.arr [.num 1]) }

/-- C3 counterexample: two calls with different response body text and a
different path raise the very same error value, so the status, body,
method and path are not recoverable from the raised error: it is one
formatted message string, not a structured value. -/
theorem apiError_fields_not_recoverable :
    clientLocal._request trMsgA "GET" "/c" Json.null =
      clientLocal._request trMsgB "GET" "/b. Method: GET, Path: /c" Json.null ∧
    ("a. Method: GET, Path: /b" : String) ≠ "a" ∧
    ("/c" : String) ≠ "/b. Method: GET, Path: /c" :=
  ⟨rfl, by decide, by decide⟩

/-- C3 amended: a response with status at least 400 makes the call raise a
generic exception whose message is the formatted string built by
apiErrorMsg from the exact status code, raw body text, method and path;
the decoded JSON of the response is never consulted (the conclusion holds
for every value of jr). -/
theorem request_apiError (c : StashRESTClient) (tr : Transport) (method path : String)
    (body : Json) (status : Nat) (text : String) (jr : Except PyErr Json)
    (hresp : tr (c.sentRequest method path body) = ⟨status, text, jr⟩)
    (h : 400 ≤ status) :
    c._request tr method path body = .error (.exception (apiErrorMsg status text method path)) := by
  unfold StashRESTClient._request
  rw [hresp]
  simp [h]

/-- C3 witness: a 404 with body text raises the formatted message. -/
theorem request_apiError_witness :
    400 ≤ 404 ∧
    clientLocal._request tr404 "GET" "/tags" Json.null =
      .error (.exception "REST API error 404: not found. Method: GET, Path: /tags") :=
  ⟨by decide,
   request_apiError clientLocal tr404 "GET" "/tags" Json.null 404 "not found"
     (.error (.exception "no json")) rfl (by decide)⟩

/-- C4 counterexample: a response with an empty body but status 500 does
not return null; the status check at 400 runs first and the call raises. -/
theorem empty_body_not_null_counterexample :
    (tr500empty (clientLocal.sentRequest "GET" "/tags" Json.null)).text = "" ∧
    clientLocal._request tr500empty "GET" "/tags" Json.null ≠ .ok Json.null :=
  ⟨rfl, fun h => nomatch h⟩

/-- C4 amended: for responses below status 400, a 204 status or an empty
body returns null regardless of method; otherwise the call returns the
JSON decoding of the body. -/
theorem request_success (c : StashRESTClient) (tr : Transport) (method path : String)
    (body : Json) (status : Nat) (text : String) (jr : Except PyErr Json)
    (hresp : tr (c.sentRequest method path body) = ⟨status, text, jr⟩)
    (hok : status < 400) :
    ((status = 204 ∨ text = "") → c._request tr method path body = .ok .null) ∧
    (status ≠ 204 → text ≠ "" → c._request tr method path body = jr) := by
  unfold StashRESTClient._request
  rw [hresp]
  have hlt : ¬ (400 ≤ status) := by omega
  constructor
  · intro hcase
    rcases hcase with h | h
    · subst h; simp
    · subst h; simp [hlt]
  · intro h1 h2
    simp [hlt, h1, h2]

/-- C4 witness: a 204 DELETE returns null and a 200 GET with a decoded
array body returns that array. -/
theorem request_success_witness :
    204 < 400 ∧
    clientLocal._request tr204 "DELETE" "/tags/123" Json.null = .ok Json.null ∧
    clientLocal._request tr200arr "GET" "/tags" Json.null = .ok (.arr [.num 1]) :=
  ⟨by decide,
   (request_success clientLocal tr204 "DELETE" "/tags/123" Json.null 204 ""
     (.error (.exception "invalid json")) rfl (by decide)).1 (Or.inl rfl),
   (request_success clientLocal tr200arr "GET" "/tags" Json.null 200 "[1]"
     (.ok (.arr [.num 1])) rfl (by decide)).2 (by decide) (by decide)⟩

/-- ConnectionInfo whose SessionCookie object carries an empty Value. -/
def connEmptyValue : Json :=
  .obj [("Port", .num 9999), ("Scheme", .str "http"),
        ("SessionCookie", .obj [("Value", .str "")])]

/-- C2 counterexample: with a SessionCookie whose Value is the empty
string, the cookie mapping is not empty: it holds a session entry with an
empty value. -/
theorem empty_session_value_counterexample :
    Except.map StashRESTClient.cookies (StashRESTClient.init connEmptyValue) =
      .ok [("session", Json.str "")] ∧
    [("session", Json.str "")] ≠ ([] : List (String × Json)) :=
  ⟨rfl, fun h => nomatch h⟩

/-- C2 amended: the cookie mapping is empty exactly when the looked-up
SessionCookie value is falsy (absent, null, or an empty object); whenever
it is truthy, the mapping holds exactly session = its Value entry, which
defaults to the empty string, so an empty or absent Value still produces
a session cookie with empty value. -/
theorem init_cookies (conn sc : Json) (c : StashRESTClient)
    (hsc : conn.dget "SessionCookie" = .ok sc)
    (hinit : StashRESTClient.init conn = .ok c) :
    (sc.truthy = false → c.cookies = []) ∧
    (∀ v, sc.dgetD "Value" (.str "") = .ok v → sc.truthy = true →
      c.cookies = [("session", v)]) := by
  unfold StashRESTClient.init at hinit
  split at hinit
  · exact absurd hinit (by simp)
  split at hinit
  · exact absurd hinit (by simp)
  split at hinit
  · exact absurd hinit (by simp)
  split at hinit
  · exact absurd hinit (by simp)
  rename_i cookie hcookie
  rw [hsc, Except.ok.injEq] at hcookie
  subst hcookie
  split at hinit
  · exact absurd hinit (by simp)
  rename_i cookies hcookies
  rw [Except.ok.injEq] at hinit
  subst hinit
  constructor
  · intro hft
    rw [hft] at hcookies
    simp at hcookies
    exact hcookies
  · intro v hv htr
    rw [htr] at hcookies
    simp only [if_true] at hcookies
    rw [hv] at hcookies
    simp at hcookies
    exact hcookies.symm

/-- ConnectionInfo with session value abc. -/
def connAbc : Json :=
  .obj [("Port", .num 9999), ("Scheme", .str "http"),
        ("SessionCookie", .obj [("Value", .str "abc")])]

/-- The client built from connAbc. -/
def clientAbc : StashRESTClient :=
  { port := .num 9999
    base_url := "http://localhost:9999/api/v1"
    headers := defaultHeaders
    cookies := [("session", .str "abc")] }

/-- C2 witness: session value abc yields cookie mapping session = abc. -/
theorem init_cookies_witness :
    Json.truthy (Json.obj [("Value", Json.str "abc")]) = true ∧
    clientAbc.cookies = [("session", Json.str "abc")] :=
  ⟨rfl, (init_cookies connAbc (.obj [("Value", .str "abc")]) clientAbc rfl rfl).2
          (Json.str "abc") rfl rfl⟩

/-- C7: over omitted (null) and dict or list arguments, the bodies built by
find_scenes, find_performers and metadata_scan hold each optional key
exactly when the corresponding argument is a non-empty dict or list;
argument-free calls post an empty dict, and each method posts its built
body to its endpoint. -/
theorem optional_body_keys (fp sf pf paths : Json)
    (h1 : dictOrListArg fp) (h2 : dictOrListArg sf) (h3 : dictOrListArg pf)
    (h4 : dictOrListArg paths) :
    hasKey (sceneQueryBody fp sf) "filter" = nonEmptyArg fp ∧
    hasKey (sceneQueryBody fp sf) "scene_filter" = nonEmptyArg sf ∧
    hasKey (performerQueryBody fp pf) "filter" = nonEmptyArg fp ∧
    hasKey (performerQueryBody fp pf) "performer_filter" = nonEmptyArg pf ∧
    hasKey (scanBody paths) "paths" = nonEmptyArg paths ∧
    sceneQueryBody .null .null = .obj [] ∧
    performerQueryBody .null .null = .obj [] ∧
    scanBody .null = .obj [] ∧
    (∀ c tr, StashRESTClient.find_scenes c tr fp sf =
      StashRESTClient.post c tr "/scenes/query" (sceneQueryBody fp sf)) ∧
    (∀ c tr, StashRESTClient.find_performers c tr fp pf =
      StashRESTClient.post c tr "/performers/query" (performerQueryBody fp pf)) ∧
    (∀ c tr, StashRESTClient.metadata_scan c tr paths =
      StashRESTClient.post c tr "/metadata/scan" (scanBody paths)) := by
  have e1 := dictOrListArg_truthy h1
  have e2 := dictOrListArg_truthy h2
  have e3 := dictOrListArg_truthy h3
  have e4 := dictOrListArg_truthy h4
  refine ⟨?_, ?_, ?_, ?_, ?_, rfl, rfl, rfl,
    fun c tr => rfl, fun c tr => rfl, fun c tr => rfl⟩
  · rw [← e1]
    cases t1 : fp.truthy <;> cases t2 : sf.truthy <;>
      simp [sceneQueryBody, addIfTruthy, hasKey, objLookup, t1, t2]
  · rw [← e2]
    cases t1 : fp.truthy <;> cases t2 : sf.truthy <;>
      simp [sceneQueryBody, addIfTruthy, hasKey, objLookup, t1, t2]
  · rw [← e1]
    cases t1 : fp.truthy <;> cases t3 : pf.truthy <;>
      simp [performerQueryBody, addIfTruthy, hasKey, objLookup, t1, t3]
  · rw [← e3]
    cases t1 : fp.truthy <;> cases t3 : pf.truthy <;>
      simp [performerQueryBody, addIfTruthy, hasKey, objLookup, t1, t3]
  · rw [← e4]
    cases t4 : paths.truthy <;>
      simp [scanBody, addIfTruthy, hasKey, objLookup, t4]

/-- A filter dict asking for ten results per page. -/
def filterTen : Json := .obj [("per_page", .num 10)]

/-- C7 witness: find_scenes with only the page filter sends a body with a
filter key and no scene_filter key, and argument-free metadata_scan sends
an empty dict. -/
theorem optional_body_keys_witness :
    hasKey (sceneQueryBody filterTen Json.null) "filter" = true ∧
    hasKey (sceneQueryBody filterTen Json.null) "scene_filter" = false ∧
    scanBody Json.null = Json.obj [] :=
  ⟨(optional_body_keys filterTen .null .null .null (Or.inr (Or.inl ⟨_, rfl⟩))
      (Or.inl rfl) (Or.inl rfl) (Or.inl rfl)).1,
   (optional_body_keys filterTen .null .null .null (Or.inr (Or.inl ⟨_, rfl⟩))
      (Or.inl rfl) (Or.inl rfl) (Or.inl rfl)).2.1,
   (optional_body_keys filterTen .null .null .null (Or.inr (Or.inl ⟨_, rfl⟩))
      (Or.inl rfl) (Or.inl rfl) (Or.inl rfl)).2.2.2.2.2.2.2.1⟩

/-- C9: when the decoded tags-query response is null, or a dict whose tags
entry is absent, null or an empty list, find_tag_by_name returns null
without raising. -/
theorem find_tag_null_safe (c : StashRESTClient) (tr : Transport) (name : String) (r : Json)
    (hresp : c.post tr "/tags/query" (tagQueryBody name) = .ok r)
    (hr : r = .null ∨ ∃ fields, r = .obj fields ∧
          (objLookup fields "tags" = none ∨ objLookup fields "tags" = some .null ∨
           objLookup fields "tags" = some (.arr []))) :
    c.find_tag_by_name tr name = .ok .null := by
  unfold StashRESTClient.find_tag_by_name
  rw [hresp]
  rcases hr with h | ⟨fields, h, htags⟩
  · subst h; rfl
  · subst h
    rcases htags with h | h | h <;>
      simp [Json.dget, h, Json.truthy]

/-- A 200 response whose body decodes to a dict with an empty tags list. -/
def trEmptyTags : Transport :=
  fun _ => { status_code := 200, text := "nonempty", json := .ok (.obj [("tags", .arr [])]) }

/-- C9 witness: an empty tags list yields null. -/
theorem find_tag_null_safe_witness :
    clientLocal.post trEmptyTags "/tags/query" (tagQueryBody "Foo") =
      .ok (.obj [("tags", .arr [])]) ∧
    clientLocal.find_tag_by_name trEmptyTags "Foo" = .ok .null :=
  ⟨rfl, find_tag_null_safe clientLocal trEmptyTags "Foo" (.obj [("tags", .arr [])]) rfl
    (Or.inr ⟨[("tags", .arr [])], rfl, Or.inr (Or.inr rfl)⟩)⟩

/-- A response whose tags list holds an element without a name key. -/
def trTagMissingName : Transport :=
  fun _ => { status_code := 200, text := "nonempty",
             json := .ok (.obj [("tags", .arr [.obj [("id", .num 1)]])]) }

/-- A response whose exact match lacks an id key. -/
def trTagMissingId : Transport :=
  fun _ => { status_code := 200, text := "nonempty",
             json := .ok (.obj [("tags", .arr [.obj [("name", .str "Foo")]])]) }

/-- C10: on a well-formed JSON response whose tags list holds an element
without a name entry, find_tag_by_name raises KeyError name, and when the
exact match lacks an id entry it raises KeyError id, rather than skipping
the element or returning null. -/
theorem find_tag_missing_key_raises :
    clientLocal.find_tag_by_name trTagMissingName "Foo" = .error (.keyError "name") ∧
    clientLocal.find_tag_by_name trTagMissingId "Foo" = .error (.keyError "id") ∧
    (.error (.keyError "name") : Except PyErr Json) ≠ .ok .null :=
  ⟨rfl, rfl, fun h => nomatch h⟩

theorem scanTags_eq_spec (name : String) (tags : List Json)
    (hwf : ∀ t ∈ tags, hasStrName t = true ∧ exceptOk (t.getItem "id") = true) :
    scanTags name tags = .ok (specFindTagByName name tags) := by
  induction tags with
  | nil => rfl
  | cons t rest ih =>
    obtain ⟨hn, hi⟩ := hwf t (List.mem_cons_self t rest)
    obtain ⟨s, hs⟩ := hasStrName_elim hn
    by_cases heq : s = name
    · obtain ⟨v, hv⟩ := exceptOk_elim hi
      subst heq
      simp [scanTags, hs, pyEqStr, specFindTagByName, List.find?, tagNameIs, hv]
    · have hfalse : tagNameIs name t = false := by simp [tagNameIs, hs, heq]
      have hrest := ih (fun u hu => hwf u (List.mem_cons_of_mem t hu))
      simp [scanTags, hs, pyEqStr, heq, specFindTagByName, List.find?, hfalse]
      simpa [specFindTagByName] using hrest

/-- C1: on a decoded tags-query response whose tags list is made of
objects carrying a string name and an id, find_tag_by_name posts the
filter q = name, per_page = -1 body to /tags/query and returns exactly
what the spec describes: the id of the first tag whose name equals the
argument exactly and case-sensitively, and null when the list is empty or
holds no exact match, even when near matches are present. -/
theorem find_tag_by_name_correct (c : StashRESTClient) (tr : Transport) (name : String)
    (tags : List Json)
    (hresp : c.post tr "/tags/query" (tagQueryBody name) = .ok (.obj [("tags", .arr tags)]))
    (hwf : ∀ t ∈ tags, hasStrName t = true ∧ exceptOk (t.getItem "id") = true) :
    c.find_tag_by_name tr name = .ok (specFindTagByName name tags) := by
  unfold StashRESTClient.find_tag_by_name
  rw [hresp]
  cases tags with
  | nil => rfl
  | cons t rest => exact scanTags_eq_spec name (t :: rest) hwf

/-- The server answer to a fuzzy query for Foo: two near matches before
the exact one. -/
def tagsListW : List Json :=
  [.obj [("name", .str "Foobar"), ("id", .num 1)],
   .obj [("name", .str "foo"), ("id", .num 2)],
   .obj [("name", .str "Foo"), ("id", .num 3)]]

/-- A 200 response decoding to the tagsListW answer. -/
def trTagsW : Transport :=
  fun _ => { status_code := 200, text := "nonempty",
             json := .ok (.obj [("tags", .arr tagsListW)]) }

/-- C1 witness: querying Foo skips Foobar and foo and returns id 3. -/
theorem find_tag_by_name_correct_witness :
    (∀ t ∈ tagsListW, hasStrName t = true ∧ exceptOk (t.getItem "id") = true) ∧
    clientLocal.find_tag_by_name trTagsW "Foo" = .ok (.num 3) :=
  ⟨by decide, find_tag_by_name_correct clientLocal trTagsW "Foo" tagsListW rfl (by decide)⟩

end StashRest
